import Mathlib

/-!
Verification of the analytical-to-geometric coordination engine.

The development shallowly embeds the repository's core computations:

* `Matcher` — `computations/surface_to_wall_matcher.py` (`SurfaceWallMatcher`):
  spatial pre-filtering, the per-surface candidate loop, and the
  surface-to-wall result mapping.  Coordinates are exact rationals; a solid's
  buffered trimesh is modelled by its z-bounds together with its pointwise
  containment oracle (`trimesh` batched `contains` is pointwise).
* `ResultsAnalyzer` — `utils/results_analyzer.py` (`analyze_dict`).
* `EtabsModel` — `models/etabs_model.py` (floor exclusion, surface
  extraction, and the grid sampling geometry, the latter over `ℝ` since the
  source normalizes edge vectors with `np.linalg.norm`).
* `RevitModel` — `models/revit_model.py` (`RevitWall.create_buffered_mesh`:
  vertex displacement along normalized vertex normals, watertightness check,
  repair branch).
-/

/-- Point with exact rational coordinates, modelling one row of a numpy
`(n, 3)` float array. -/
structure Pt where
  x : ℚ
  y : ℚ
  z : ℚ
deriving DecidableEq

namespace Matcher

/-- View of a solid's buffered mesh as the matcher consumes it: the z
components of `buffered_mesh.bounds` and the point-containment oracle
`buffered_mesh.contains`, modelled pointwise (batched `contains` evaluates
each point independently). -/
structure BufferedMesh where
  minZ : ℚ
  maxZ : ℚ
  containsPt : Pt → Bool

/-- `RevitWall` as used by the matcher: a stable id and the buffered mesh. -/
structure RevitWall where
  id : String
  buffered_mesh : BufferedMesh

/-- `AnalyticalSurface` as used by the matcher: id, the 4 corner vertices
(`surface.points`), the cached interior sample points populated by the
interior-point generation call, and the z components of `surface.bounds`. -/
structure AnalyticalSurface where
  id : String
  points : List Pt
  interior_points : List Pt
  minZ : ℚ
  maxZ : ℚ

/-- `np.vstack((surface.points, surface.interior_points))` inside
`is_surface_coordinated`. -/
def all_points (surface : AnalyticalSurface) : List Pt :=
  surface.points ++ surface.interior_points

/-- `SurfaceWallMatcher.spatial_proximity_filter`: keep a wall unless
`surface_max_z < wall_min_z or surface_min_z > wall_max_z`; the source
appends kept walls to `filtered_walls` in input order. -/
def spatial_proximity_filter (surface : AnalyticalSurface) :
    List RevitWall → List RevitWall
  | [] => []
  | wall :: walls =>
    if surface.maxZ < wall.buffered_mesh.minZ ∨ surface.minZ > wall.buffered_mesh.maxZ then
      spatial_proximity_filter surface walls
    else
      wall :: spatial_proximity_filter surface walls

/-- Element count (`.size`) of the numpy array corresponding to a list of
3-D points: an `(m, 3)` array has `size = 3 * m`. -/
def np_size (pts : List Pt) : Nat := 3 * pts.length

/-- Candidate loop of `SurfaceWallMatcher.is_surface_coordinated` over the
combined point list (source lines 48-67).  Per candidate wall: if `contains`
is true on every point, credit the wall and break; otherwise compute
`remaining_points = all_points[~points_contained]`, an `(m, 3)` array; if
`remaining_points.size == 0` (`3 * m = 0`), credit and break (a dead
branch); if `remaining_points.size < all_points.shape[0]` — the source
compares the element count `3 * m` of `remaining_points` with the row count
`n` of `all_points`, so a partially-containing wall is credited only when
`3 * m < n`, i.e. fewer than a third of the sample points are left
uncontained — credit and continue; else continue uncredited.  The full
`all_points` list is re-tested against every candidate — the source never
shrinks it. -/
def coordination_loop (all_pts : List Pt) : List RevitWall → List String
  | [] => []
  | wall :: rest =>
    if all_pts.all wall.buffered_mesh.containsPt then
      [wall.id]
    else
      let remaining_points := all_pts.filter (fun p => !wall.buffered_mesh.containsPt p)
      if np_size remaining_points = 0 then
        [wall.id]
      else if np_size remaining_points < all_pts.length then
        wall.id :: coordination_loop all_pts rest
      else
        coordination_loop all_pts rest

/-- Message of the exception raised by `surface.generate_interior_points()`. -/
def generate_interior_points_error : String :=
  "AttributeError: AnalyticalSurface object has no attribute generate_interior_points"

/-- The call `surface.generate_interior_points()`
(surface_to_wall_matcher.py:45): `AnalyticalSurface` in models/etabs_model.py
defines no method of that name — only `generate_grid` — so the attribute
lookup raises `AttributeError` on every surface; the error value models the
exception. -/
def generate_interior_points (_surface : AnalyticalSurface) : Except String (List Pt) :=
  Except.error generate_interior_points_error

/-- `SurfaceWallMatcher.is_surface_coordinated`: generate the interior points
(a call that raises, see `generate_interior_points`), stack them under the
corner vertices (`np.vstack`), and run the candidate loop; the error value
models the uncaught exception propagating out of the function. -/
def is_surface_coordinated (surface : AnalyticalSurface)
    (candidate_walls : List RevitWall) : Except String (List String) :=
  match generate_interior_points surface with
  | Except.error e => Except.error e
  | Except.ok interior =>
    Except.ok (coordination_loop (surface.points ++ interior) candidate_walls)

/-- `SurfaceWallMatcher.find_matching_partners`: per surface, pre-filter the
walls and query `is_surface_coordinated`, propagating its exception; the
result dict, in insertion order, receives an entry only when
`matching_wall_ids` is truthy, i.e. non-empty (`if matching_wall_ids:`). -/
def find_matching_partners (surfaces : List AnalyticalSurface)
    (walls : List RevitWall) : Except String (List (String × List String)) :=
  match surfaces with
  | [] => Except.ok []
  | surface :: rest =>
    let candidate_walls := spatial_proximity_filter surface walls
    match is_surface_coordinated surface candidate_walls with
    | Except.error e => Except.error e
    | Except.ok matching_wall_ids =>
      match find_matching_partners rest walls with
      | Except.error e => Except.error e
      | Except.ok rest_matches =>
        Except.ok (if matching_wall_ids.isEmpty then rest_matches
          else (surface.id, matching_wall_ids) :: rest_matches)

end Matcher

namespace ResultsAnalyzer

/-- One bucket of the `analyze_dict` result: a count and the keys credited to
the bucket, in iteration order. -/
structure CategoryResult where
  count : Nat
  keys : List String
deriving DecidableEq

/-- Return value of `analyze_dict`. -/
structure AnalyzeResult where
  empty_lists : CategoryResult
  lists_greater_than_3 : CategoryResult
  lists_between_2_and_3 : CategoryResult
  lists_with_1_item : CategoryResult
deriving DecidableEq

/-- `utils/results_analyzer.py` `analyze_dict`: bucket every entry by the
length of its value list through the source's `if`/`elif` chain
(`not value` / `len > 3` / `2 <= len <= 3` / `len == 1`). -/
def analyze_dict : List (String × List String) → AnalyzeResult
  | [] => ⟨⟨0, []⟩, ⟨0, []⟩, ⟨0, []⟩, ⟨0, []⟩⟩
  | (key, value) :: rest =>
    let r := analyze_dict rest
    if value = [] then
      { r with empty_lists := ⟨r.empty_lists.count + 1, key :: r.empty_lists.keys⟩ }
    else if value.length > 3 then
      { r with lists_greater_than_3 :=
          ⟨r.lists_greater_than_3.count + 1, key :: r.lists_greater_than_3.keys⟩ }
    else if 2 ≤ value.length ∧ value.length ≤ 3 then
      { r with lists_between_2_and_3 :=
          ⟨r.lists_between_2_and_3.count + 1, key :: r.lists_between_2_and_3.keys⟩ }
    else if value.length = 1 then
      { r with lists_with_1_item :=
          ⟨r.lists_with_1_item.count + 1, key :: r.lists_with_1_item.keys⟩ }
    else r

end ResultsAnalyzer

namespace Matcher

/-- Removing the contained points from a list shortens it exactly when some
point of the list is contained. -/
lemma filter_not_length_lt_iff (c : Pt → Bool) (l : List Pt) :
    (l.filter (fun p => !c p)).length < l.length ↔ l.any c = true := by
  induction l with
  | nil => simp
  | cons a l ih =>
    by_cases h : c a = true
    · simp only [List.filter_cons, h, Bool.not_true, Bool.false_eq_true, if_false,
        List.length_cons, List.any_cons, h, Bool.true_or, iff_true]
      exact Nat.lt_succ_of_le (List.length_filter_le _ _)
    · rw [Bool.not_eq_true] at h
      simp only [List.filter_cons, h, Bool.not_false, if_true, List.length_cons,
        List.any_cons, h, Bool.false_or, Nat.succ_lt_succ_iff, ih]

/-- When some sample point is contained by no candidate wall, the candidate
loop never takes a break branch and credits exactly those candidates that
leave fewer than a third of the sample points uncontained
(`remaining_points.size < all_points.shape[0]`, i.e. `3 * m < n`). -/
lemma coordination_loop_eq_of_uncovered (pts : List Pt) (ws : List RevitWall)
    (h : ∃ q ∈ pts, ∀ w ∈ ws, w.buffered_mesh.containsPt q = false) :
    coordination_loop pts ws =
      (ws.filter (fun w =>
        decide (np_size (pts.filter (fun p => !w.buffered_mesh.containsPt p)) <
          pts.length))).map RevitWall.id := by
  induction ws with
  | nil => rfl
  | cons w rest ih =>
    obtain ⟨q, hq, hqc⟩ := h
    have hw : w.buffered_mesh.containsPt q = false := hqc w (by simp)
    have hrest : ∃ q ∈ pts, ∀ w' ∈ rest, w'.buffered_mesh.containsPt q = false :=
      ⟨q, hq, fun w' hw' => hqc w' (by simp [hw'])⟩
    have hall : pts.all w.buffered_mesh.containsPt = false := by
      rw [Bool.eq_false_iff]
      intro hc
      have := List.all_eq_true.mp hc q hq
      rw [hw] at this
      exact Bool.false_ne_true this
    have hq_in : q ∈ pts.filter (fun p => !w.buffered_mesh.containsPt p) :=
      List.mem_filter.mpr ⟨hq, by rw [hw]; rfl⟩
    have hrem_ne : ¬(np_size (pts.filter (fun p => !w.buffered_mesh.containsPt p)) = 0) := by
      have hpos : 0 < (pts.filter (fun p => !w.buffered_mesh.containsPt p)).length :=
        List.length_pos.mpr (List.ne_nil_of_mem hq_in)
      simp only [np_size]
      omega
    by_cases hlt :
        np_size (pts.filter (fun p => !w.buffered_mesh.containsPt p)) < pts.length
    · simp only [coordination_loop, hall, Bool.false_eq_true, if_false, if_neg hrem_ne,
        if_pos hlt, List.filter_cons, decide_eq_true_eq, hlt, if_true, List.map_cons,
        ih hrest]
    · simp only [coordination_loop, hall, Bool.false_eq_true, if_false, if_neg hrem_ne,
        if_neg hlt, List.filter_cons, decide_eq_true_eq, hlt, if_false, ih hrest]

/-- Every id credited by the candidate loop belongs to a candidate wall whose
oracle contains at least one of the sample points. -/
lemma coordination_loop_mem (pts : List Pt) (hne : pts ≠ []) :
    ∀ (ws : List RevitWall) (i : String), i ∈ coordination_loop pts ws →
      ∃ w ∈ ws, w.id = i ∧ ∃ p ∈ pts, w.buffered_mesh.containsPt p = true := by
  intro ws
  induction ws with
  | nil => intro i hi; simp [coordination_loop] at hi
  | cons w rest ih =>
    intro i hi
    obtain ⟨q, hq⟩ := List.exists_mem_of_ne_nil pts hne
    by_cases hall : pts.all w.buffered_mesh.containsPt = true
    · rw [coordination_loop, if_pos hall] at hi
      have hiw : i = w.id := by simpa using hi
      exact ⟨w, by simp, hiw.symm, q, hq, List.all_eq_true.mp hall q hq⟩
    · rw [coordination_loop, if_neg hall] at hi
      by_cases h0 : np_size (pts.filter (fun p => !w.buffered_mesh.containsPt p)) = 0
      · rw [if_pos h0] at hi
        have h0l : (pts.filter (fun p => !w.buffered_mesh.containsPt p)).length = 0 := by
          simp only [np_size] at h0
          omega
        rw [List.length_eq_zero, List.filter_eq_nil_iff] at h0l
        have hcq : w.buffered_mesh.containsPt q = true := by
          have := h0l q hq
          simpa using this
        have hiw : i = w.id := by simpa using hi
        exact ⟨w, by simp, hiw.symm, q, hq, hcq⟩
      · rw [if_neg h0] at hi
        by_cases hlt :
            np_size (pts.filter (fun p => !w.buffered_mesh.containsPt p)) < pts.length
        · rw [if_pos hlt] at hi
          have hlen : (pts.filter (fun p => !w.buffered_mesh.containsPt p)).length <
              pts.length := by
            simp only [np_size] at hlt
            omega
          rcases List.mem_cons.mp hi with hiw | hirest
          · obtain ⟨p, hp, hcp⟩ :=
              List.any_eq_true.mp ((filter_not_length_lt_iff _ _).mp hlen)
            exact ⟨w, by simp, hiw.symm, p, hp, hcp⟩
          · obtain ⟨w', hw', hid, hpt⟩ := ih i hirest
            exact ⟨w', by simp [hw'], hid, hpt⟩
        · rw [if_neg hlt] at hi
          obtain ⟨w', hw', hid, hpt⟩ := ih i hi
          exact ⟨w', by simp [hw'], hid, hpt⟩

end Matcher

namespace Fixtures

/-- Unit-square corner vertices of a test surface. -/
def sq_points : List Pt := [⟨0, 0, 0⟩, ⟨1, 0, 0⟩, ⟨1, 1, 0⟩, ⟨0, 1, 0⟩]

/-- Test surface: the unit square at z = 0, no cached interior points. -/
def surfaceS : Matcher.AnalyticalSurface := ⟨"s1", sq_points, [], 0, 0⟩

/-- Wall whose buffered mesh contains every point except the corner
`(0,1,0)`: it leaves one of the four corners uncontained (`m = 1`), so the
crediting test `remaining_points.size < all_points.shape[0]` reads
`3 < 4`. -/
def wallA : Matcher.RevitWall :=
  ⟨"wallA", ⟨-1, 1, fun p => !decide (p.x = 0 ∧ p.y = 1)⟩⟩

/-- A second wall containing exactly the same points as `wallA` (all but the
corner `(0,1,0)`). -/
def wallB : Matcher.RevitWall :=
  ⟨"wallB", ⟨-1, 1, fun p => !decide (p.x = 0 ∧ p.y = 1)⟩⟩

/-- Wall whose buffered mesh contains no point at all. -/
def wallN : Matcher.RevitWall := ⟨"wallN", ⟨-1, 1, fun _ => false⟩⟩

/-- Wall lying entirely above the test surface (z interval [5,6]), so the
spatial pre-filter discards it. -/
def wallHigh : Matcher.RevitWall := ⟨"wallHigh", ⟨5, 6, fun _ => true⟩⟩

end Fixtures

/-- C1, counterexample.  The claim says: when at least one sample point of
the surface is contained by no candidate solid, the match list computed by
the candidate loop is empty.  Run on the corner points of `surfaceS` with
the single candidate `wallA` — which contains three of the four corners —
the corner `(0,1,0)` is contained by no candidate, yet the loop credits
`wallA` (the crediting test `remaining_points.size < all_points.shape[0]`
reads `3 < 4`) and returns `["wallA"]`: the partial credit is kept, not
discarded.  (The enclosing `is_surface_coordinated` raises before the loop,
see `generate_interior_points`; the loop itself is source lines 48-67.) -/
theorem C1_counterexample :
    (∃ q ∈ Matcher.all_points Fixtures.surfaceS,
      ∀ w ∈ [Fixtures.wallA], w.buffered_mesh.containsPt q = false) ∧
    Matcher.coordination_loop (Matcher.all_points Fixtures.surfaceS)
      [Fixtures.wallA] = ["wallA"] := by
  constructor
  · exact ⟨⟨0, 1, 0⟩, by decide, by decide⟩
  · decide

/-- C1, amended.  When at least one sample point is contained by no candidate
solid, the candidate loop does not reset its match list: partial credits are
kept, and the returned list consists of exactly the ids of those candidates
that leave fewer than a third of the sample points uncontained — the
source's crediting test compares `remaining_points.size` (the element count
`3 * m` of the `(m, 3)` array) with `all_points.shape[0]` (the row count
`n`) — in candidate order. -/
theorem C1_partial_credits_kept (pts : List Pt)
    (candidate_walls : List Matcher.RevitWall)
    (h : ∃ q ∈ pts, ∀ w ∈ candidate_walls, w.buffered_mesh.containsPt q = false) :
    Matcher.coordination_loop pts candidate_walls =
      (candidate_walls.filter (fun w =>
        decide (Matcher.np_size (pts.filter (fun p => !w.buffered_mesh.containsPt p)) <
          pts.length))).map Matcher.RevitWall.id :=
  Matcher.coordination_loop_eq_of_uncovered pts candidate_walls h

/-- C1, witness for the amended theorem: corner `(0,1,0)` of `surfaceS` is
contained by neither `wallA` nor `wallN`; `wallA` (three of four corners,
`3 < 4`) is credited, `wallN` (zero corners, `12 < 4` fails) is not. -/
theorem C1_partial_credits_kept_witness :
    Matcher.coordination_loop (Matcher.all_points Fixtures.surfaceS)
      [Fixtures.wallA, Fixtures.wallN] = ["wallA"] := by
  have h : ∃ q ∈ Matcher.all_points Fixtures.surfaceS,
      ∀ w ∈ [Fixtures.wallA, Fixtures.wallN], w.buffered_mesh.containsPt q = false :=
    ⟨⟨0, 1, 0⟩, by decide, by decide⟩
  rw [C1_partial_credits_kept (Matcher.all_points Fixtures.surfaceS)
    [Fixtures.wallA, Fixtures.wallN] h]
  decide

/-- C2, counterexample.  The claim says contained points are removed from the
remaining set before the next candidate is queried, so that every credited
solid explains at least one sample point not explained by an
earlier-credited solid.  With candidates `[wallA, wallB]`, both containing
exactly the corners `(0,0,0)`, `(1,0,0)`, `(1,1,0)`, the loop credits both
(the crediting test reads `3 < 4` for each) — yet every point contained by
the second credited wall is already contained by the first, so `wallB`
explains no previously-unexplained point. -/
theorem C2_counterexample :
    Matcher.coordination_loop (Matcher.all_points Fixtures.surfaceS)
      [Fixtures.wallA, Fixtures.wallB] = ["wallA", "wallB"] ∧
    ∀ p ∈ Matcher.all_points Fixtures.surfaceS,
      Fixtures.wallB.buffered_mesh.containsPt p = true →
        Fixtures.wallA.buffered_mesh.containsPt p = true := by
  constructor
  · decide
  · decide

/-- C2, amended.  Contained points are never removed: each candidate is
re-tested against the full sample point set, and a partially-containing
candidate is credited exactly when it leaves fewer than a third of the
sample points uncontained (`remaining_points.size < all_points.shape[0]`).
What does hold is that every credited solid id belongs to a candidate whose
buffered mesh contains at least one sample point of the full set — not
necessarily one unexplained by earlier-credited candidates. -/
theorem C2_each_credit_contains_a_point (pts : List Pt)
    (candidate_walls : List Matcher.RevitWall)
    (hne : pts ≠ []) (i : String)
    (hi : i ∈ Matcher.coordination_loop pts candidate_walls) :
    ∃ w ∈ candidate_walls, w.id = i ∧
      ∃ p ∈ pts, w.buffered_mesh.containsPt p = true :=
  Matcher.coordination_loop_mem pts hne candidate_walls i hi

/-- C2, witness for the amended theorem at the concrete instance: the credit
`"wallA"` appears in the loop output for `surfaceS` against
`[wallA, wallN]`, and the theorem produces a candidate wall containing a
sample point. -/
theorem C2_each_credit_contains_a_point_witness :
    ∃ w ∈ [Fixtures.wallA, Fixtures.wallN], w.id = "wallA" ∧
      ∃ p ∈ Matcher.all_points Fixtures.surfaceS,
        w.buffered_mesh.containsPt p = true :=
  C2_each_credit_contains_a_point (Matcher.all_points Fixtures.surfaceS)
    [Fixtures.wallA, Fixtures.wallN] (by decide) "wallA" (by decide)

/-- C3, code evaluation at the failing input.  The claim says every input
surface appears as a key of the returned mapping, with an empty list when
unmatched.  For `surfaceS` (z-bounds [0,0]) against the single wall
`wallHigh` (z-bounds [5,6]) the pre-filter leaves zero candidates, and the
run does not return a mapping at all: `is_surface_coordinated` raises
`AttributeError` at `surface.generate_interior_points()` — a method
`AnalyticalSurface` does not define — so `find_matching_partners` propagates
the exception instead of mapping the surface to `[]`.  The last conjunct
traces the repaired path: with zero candidates the loop yields `[]`, which
the `if matching_wall_ids:` guard would drop from the mapping rather than
store as an empty entry. -/
theorem C3_totality_violated :
    Matcher.spatial_proximity_filter Fixtures.surfaceS [Fixtures.wallHigh] = [] ∧
    Matcher.find_matching_partners [Fixtures.surfaceS] [Fixtures.wallHigh] =
      Except.error Matcher.generate_interior_points_error ∧
    Matcher.coordination_loop (Matcher.all_points Fixtures.surfaceS) [] = [] := by
  refine ⟨by rfl, by rfl, by rfl⟩

/-- C5, confirmed.  The spatial pre-filter returns exactly the walls whose
buffered-mesh z interval overlaps the surface's z interval — a wall is
discarded iff `surface.max < wall.min` or `surface.min > wall.max` — and the
kept walls form a sublist of the input, i.e. they appear in the same
relative order. -/
theorem C5_prefilter_overlap_and_order (surface : Matcher.AnalyticalSurface)
    (walls : List Matcher.RevitWall) :
    Matcher.spatial_proximity_filter surface walls =
      walls.filter (fun w =>
        !(decide (surface.maxZ < w.buffered_mesh.minZ) ||
          decide (surface.minZ > w.buffered_mesh.maxZ))) ∧
    (Matcher.spatial_proximity_filter surface walls).Sublist walls ∧
    ∀ w, w ∈ Matcher.spatial_proximity_filter surface walls ↔
      w ∈ walls ∧
        ¬(surface.maxZ < w.buffered_mesh.minZ ∨ surface.minZ > w.buffered_mesh.maxZ) := by
  have hfilter : Matcher.spatial_proximity_filter surface walls =
      walls.filter (fun w =>
        !(decide (surface.maxZ < w.buffered_mesh.minZ) ||
          decide (surface.minZ > w.buffered_mesh.maxZ))) := by
    induction walls with
    | nil => rfl
    | cons w ws ih =>
      by_cases h : surface.maxZ < w.buffered_mesh.minZ ∨ surface.minZ > w.buffered_mesh.maxZ
      · have hb : (!(decide (surface.maxZ < w.buffered_mesh.minZ) ||
            decide (surface.minZ > w.buffered_mesh.maxZ))) = false := by
          rcases h with h | h <;> simp [h]
        rw [Matcher.spatial_proximity_filter, if_pos h, List.filter_cons, hb]
        simpa using ih
      · have hb : (!(decide (surface.maxZ < w.buffered_mesh.minZ) ||
            decide (surface.minZ > w.buffered_mesh.maxZ))) = true := by
          rw [not_or] at h
          simp [h.1, h.2]
        rw [Matcher.spatial_proximity_filter, if_neg h, List.filter_cons, hb]
        simpa using ih
  refine ⟨hfilter, ?_, ?_⟩
  · rw [hfilter]
    exact List.filter_sublist walls
  · intro w
    rw [hfilter, List.mem_filter]
    simp only [Bool.not_eq_true', Bool.or_eq_false_iff, decide_eq_false_iff_not, not_or]

namespace ResultsAnalyzer

/-- Per-bucket counts of `analyze_dict` as `countP` of the bucket criteria. -/
lemma analyze_dict_counts (d : List (String × List String)) :
    (analyze_dict d).empty_lists.count =
      d.countP (fun kv => decide (kv.2.length = 0)) ∧
    (analyze_dict d).lists_with_1_item.count =
      d.countP (fun kv => decide (kv.2.length = 1)) ∧
    (analyze_dict d).lists_between_2_and_3.count =
      d.countP (fun kv => decide (2 ≤ kv.2.length ∧ kv.2.length ≤ 3)) ∧
    (analyze_dict d).lists_greater_than_3.count =
      d.countP (fun kv => decide (3 < kv.2.length)) := by
  induction d with
  | nil => simp [analyze_dict]
  | cons kv rest ih =>
    obtain ⟨key, value⟩ := kv
    obtain ⟨ih0, ih1, ih23, ih3⟩ := ih
    by_cases h0 : value = ([] : List String)
    · subst h0
      simp [analyze_dict, List.countP_cons, ih0, ih1, ih23, ih3]
    · have h00 : ¬(value.length = 0) := by
        intro hl
        exact h0 (List.length_eq_zero.mp hl)
      by_cases h3 : value.length > 3
      · have h11 : ¬(value.length = 1) := by omega
        have h2 : ¬(2 ≤ value.length ∧ value.length ≤ 3) := by omega
        simp [analyze_dict, h0, h3, h00, h11, h2, List.countP_cons, ih0, ih1, ih23, ih3]
      · by_cases h23 : 2 ≤ value.length ∧ value.length ≤ 3
        · have h11 : ¬(value.length = 1) := by omega
          simp [analyze_dict, h0, h3, h00, h11, h23, List.countP_cons, ih0, ih1, ih23, ih3]
        · have h11 : value.length = 1 := by omega
          simp [analyze_dict, h0, h3, h00, h11, h23, List.countP_cons, ih0, ih1, ih23, ih3]

/-- The four bucket counts of `analyze_dict` sum to the number of entries:
every entry lands in exactly one bucket. -/
lemma analyze_dict_sum (d : List (String × List String)) :
    (analyze_dict d).empty_lists.count + (analyze_dict d).lists_with_1_item.count +
      (analyze_dict d).lists_between_2_and_3.count +
      (analyze_dict d).lists_greater_than_3.count = d.length := by
  induction d with
  | nil => rfl
  | cons kv rest ih =>
    obtain ⟨key, value⟩ := kv
    by_cases h0 : value = ([] : List String)
    · subst h0
      simp [analyze_dict]
      omega
    · have h00 : ¬(value.length = 0) := by
        intro hl
        exact h0 (List.length_eq_zero.mp hl)
      by_cases h3 : value.length > 3
      · have h11 : ¬(value.length = 1) := by omega
        have h2 : ¬(2 ≤ value.length ∧ value.length ≤ 3) := by omega
        simp [analyze_dict, h0, h3, h00, h11, h2]
        omega
      · by_cases h23 : 2 ≤ value.length ∧ value.length ≤ 3
        · have h11 : ¬(value.length = 1) := by omega
          simp [analyze_dict, h0, h3, h00, h11, h23]
          omega
        · have h11 : value.length = 1 := by omega
          simp [analyze_dict, h0, h3, h00, h11, h23]
          omega

end ResultsAnalyzer

/-- C9, confirmed.  `analyze_dict` counts every entry in exactly one bucket
determined by the length of its value list — 0 in `empty_lists`, exactly 1 in
`lists_with_1_item`, 2 or 3 in `lists_between_2_and_3`, more than 3 in
`lists_greater_than_3` — the four counts sum to the number of entries, and
the mapping `{"s1": [], "s2": ["w1"], "s3": ["w1","w2"],
"s4": ["w1","w2","w3","w4"]}` yields count 1 in every bucket. -/
theorem C9_classification :
    (∀ d : List (String × List String),
      (ResultsAnalyzer.analyze_dict d).empty_lists.count =
        d.countP (fun kv => decide (kv.2.length = 0)) ∧
      (ResultsAnalyzer.analyze_dict d).lists_with_1_item.count =
        d.countP (fun kv => decide (kv.2.length = 1)) ∧
      (ResultsAnalyzer.analyze_dict d).lists_between_2_and_3.count =
        d.countP (fun kv => decide (2 ≤ kv.2.length ∧ kv.2.length ≤ 3)) ∧
      (ResultsAnalyzer.analyze_dict d).lists_greater_than_3.count =
        d.countP (fun kv => decide (3 < kv.2.length)) ∧
      (ResultsAnalyzer.analyze_dict d).empty_lists.count +
        (ResultsAnalyzer.analyze_dict d).lists_with_1_item.count +
        (ResultsAnalyzer.analyze_dict d).lists_between_2_and_3.count +
        (ResultsAnalyzer.analyze_dict d).lists_greater_than_3.count = d.length) ∧
    ResultsAnalyzer.analyze_dict
      [("s1", []), ("s2", ["w1"]), ("s3", ["w1", "w2"]),
        ("s4", ["w1", "w2", "w3", "w4"])] =
      ⟨⟨1, ["s1"]⟩, ⟨1, ["s4"]⟩, ⟨1, ["s3"]⟩, ⟨1, ["s2"]⟩⟩ := by
  refine ⟨fun d => ?_, rfl⟩
  obtain ⟨h0, h1, h23, h3⟩ := ResultsAnalyzer.analyze_dict_counts d
  exact ⟨h0, h1, h23, h3, ResultsAnalyzer.analyze_dict_sum d⟩

namespace EtabsModel

/-- Binary minimum on `ℚ` by explicit comparison (kernel-reducible). -/
def qmin (a b : ℚ) : ℚ := if b < a then b else a

/-- Binary maximum on `ℚ` by explicit comparison (kernel-reducible). -/
def qmax (a b : ℚ) : ℚ := if a < b then b else a

/-- Leftmost-fold minimum, modelling `np.min` over a non-empty array (the
value for `[]` is an arbitrary default; the source never evaluates it). -/
def list_min : List ℚ → ℚ
  | [] => 0
  | a :: l => l.foldl qmin a

/-- Leftmost-fold maximum, modelling `np.max` over a non-empty array. -/
def list_max : List ℚ → ℚ
  | [] => 0
  | a :: l => l.foldl qmax a

/-- `EtabsModelProcessor._is_floor`: `np.ptp(z_coords) < tolerance` with the
default `tolerance=1e-5`; `np.ptp` is max minus min. -/
def is_floor (vertices : List Pt) : Bool :=
  decide (list_max (vertices.map Pt.z) - list_min (vertices.map Pt.z) < 1 / 100000)

/-- `utils/unit_converter.py` `convert_units`: `mm` divides by 1000, `cm` by
100, `m` is identity, anything else raises `ValueError` (modelled as
`none`). -/
def convert_units (value : ℚ) (units : String) : Option ℚ :=
  if units = "mm" then some (value / 1000)
  else if units = "cm" then some (value / 100)
  else if units = "m" then some value
  else none

/-- Element-wise application of `convert_units` to one vertex
(`np.vectorize` in the source); the fallback is never reached because the
caller guards on `units in ['mm', 'cm']`. -/
def scale_point (units : String) (p : Pt) : Pt :=
  ⟨(convert_units p.x units).getD p.x,
   (convert_units p.y units).getD p.y,
   (convert_units p.z units).getD p.z⟩

/-- An ETABS `Element2D` as consumed by `create_analytical_surface`:
`speckle_type`, `applicationId`, `id`, and the display-mesh vertices after
`np.array(...).reshape(-1, 3)`. -/
structure Element2D where
  speckle_type : String
  applicationId : String
  id : String
  vertices : List Pt

/-- `AnalyticalSurface.__init__`: store the points and the id, derive the
bounds (only the z components are modelled, the only ones consumed
downstream), with `interior_points` initialized empty (`None`). -/
def mkAnalyticalSurface (points : List Pt) (surface_id : String) :
    Matcher.AnalyticalSurface :=
  ⟨surface_id, points, [], list_min (points.map Pt.z), list_max (points.map Pt.z)⟩

/-- `EtabsModelProcessor.create_analytical_surface`: reshape vertices, skip
the element when `_is_floor` holds, scale per coordinate iff units are `mm`
or `cm`, and build the surface. -/
def create_analytical_surface (units : String) (surface : Element2D) :
    Option Matcher.AnalyticalSurface :=
  let vertices_array := surface.vertices
  if is_floor vertices_array then none
  else if units = "mm" ∨ units = "cm" then
    some (mkAnalyticalSurface (vertices_array.map (scale_point units)) surface.id)
  else
    some (mkAnalyticalSurface vertices_array surface.id)

/-- Substring test on character lists, modelling Python's `x in y` for
strings. -/
def has_substr (pat : List Char) : List Char → Bool
  | [] => pat.isEmpty
  | c :: rest => pat.isPrefixOf (c :: rest) || has_substr pat rest

/-- Loop of `EtabsModelProcessor.extract_analytical_surfaces` with the
`application_ids` dedup set made explicit: keep elements whose
`speckle_type` contains `"Element2D"` and whose `applicationId` is unseen
(the set is updated exactly when both hold, before the surface is built),
and collect the non-`None` surfaces. -/
def extract_go (units : String) : List Element2D → List String →
    List Matcher.AnalyticalSurface
  | [], _ => []
  | el :: rest, seen =>
    if has_substr "Element2D".toList el.speckle_type.toList ∧ el.applicationId ∉ seen then
      match create_analytical_surface units el with
      | some s => s :: extract_go units rest (el.applicationId :: seen)
      | none => extract_go units rest (el.applicationId :: seen)
    else
      extract_go units rest seen

/-- `EtabsModelProcessor.extract_analytical_surfaces`, starting from an empty
dedup set. -/
def extract_analytical_surfaces (units : String) (elements : List Element2D) :
    List Matcher.AnalyticalSurface :=
  extract_go units elements []

/-- A surface produced by `create_analytical_surface` comes from a non-floor
element. -/
lemma create_some_not_floor {units : String} {el : Element2D}
    {s : Matcher.AnalyticalSurface}
    (h : create_analytical_surface units el = some s) :
    is_floor el.vertices = false := by
  by_cases hf : is_floor el.vertices = true
  · rw [create_analytical_surface, if_pos hf] at h
    exact absurd h (by simp)
  · exact Bool.eq_false_iff.mpr hf

/-- Every extracted surface is the `create_analytical_surface` image of some
input element. -/
lemma extract_go_mem (units : String) :
    ∀ (elements : List Element2D) (seen : List String)
      (s : Matcher.AnalyticalSurface), s ∈ extract_go units elements seen →
      ∃ el ∈ elements, create_analytical_surface units el = some s := by
  intro elements
  induction elements with
  | nil => intro seen s hs; simp [extract_go] at hs
  | cons el rest ih =>
    intro seen s hs
    rw [extract_go] at hs
    by_cases hc : has_substr "Element2D".toList el.speckle_type.toList ∧
        el.applicationId ∉ seen
    · rw [if_pos hc] at hs
      rcases hcreate : create_analytical_surface units el with _ | s'
      · rw [hcreate] at hs
        obtain ⟨el', hel', h'⟩ := ih _ s hs
        exact ⟨el', by simp [hel'], h'⟩
      · rw [hcreate] at hs
        rcases List.mem_cons.mp hs with hhead | htail
        · exact ⟨el, by simp, by rw [hcreate, hhead]⟩
        · obtain ⟨el', hel', h'⟩ := ih _ s htail
          exact ⟨el', by simp [hel'], h'⟩
    · rw [if_neg hc] at hs
      obtain ⟨el', hel', h'⟩ := ih _ s hs
      exact ⟨el', by simp [hel'], h'⟩

end EtabsModel

/-- C10, confirmed.  Surface construction returns `None` for every element
whose vertex z-range (`np.ptp`) is below the tolerance `1e-5`, and every
surface in the extracted list comes from a non-floor element — horizontal
(floor-like) elements never participate in matching. -/
theorem C10_floor_exclusion :
    (∀ (units : String) (el : EtabsModel.Element2D), el.vertices ≠ [] →
      EtabsModel.list_max (el.vertices.map Pt.z) -
        EtabsModel.list_min (el.vertices.map Pt.z) < 1 / 100000 →
      EtabsModel.create_analytical_surface units el = none) ∧
    (∀ (units : String) (elements : List EtabsModel.Element2D)
      (s : Matcher.AnalyticalSurface),
      s ∈ EtabsModel.extract_analytical_surfaces units elements →
      ∃ el ∈ elements, EtabsModel.create_analytical_surface units el = some s ∧
        EtabsModel.is_floor el.vertices = false) := by
  constructor
  · intro units el _ hlt
    have hf : EtabsModel.is_floor el.vertices = true := by
      rw [EtabsModel.is_floor, decide_eq_true_eq]
      exact hlt
    rw [EtabsModel.create_analytical_surface, if_pos hf]
  · intro units elements s hs
    obtain ⟨el, hel, hcreate⟩ := EtabsModel.extract_go_mem units elements [] s hs
    exact ⟨el, hel, hcreate, EtabsModel.create_some_not_floor hcreate⟩

/-- C10, witness: a flat (all z = 0) quadrilateral element is rejected by
`create_analytical_surface`, by the theorem applied at this element. -/
theorem C10_floor_exclusion_witness :
    EtabsModel.create_analytical_surface "m"
      ⟨"Objects.Structural.Geometry.Element2D", "app1", "e1",
        [⟨0, 0, 0⟩, ⟨1, 0, 0⟩, ⟨1, 1, 0⟩, ⟨0, 1, 0⟩]⟩ = none :=
  C10_floor_exclusion.1 "m"
    ⟨"Objects.Structural.Geometry.Element2D", "app1", "e1",
      [⟨0, 0, 0⟩, ⟨1, 0, 0⟩, ⟨1, 1, 0⟩, ⟨0, 1, 0⟩]⟩
    (by simp)
    (by
      simp [EtabsModel.list_max, EtabsModel.list_min, EtabsModel.qmax,
        EtabsModel.qmin, lt_self_iff_false])

/-- Vector in 3-space with exact real coordinates, for the mesh- and
grid-geometry of the source (which normalizes with `np.linalg.norm`). -/
abbrev V3 := ℝ × ℝ × ℝ

/-- Componentwise vector addition. -/
noncomputable def vadd (a b : V3) : V3 := (a.1 + b.1, a.2.1 + b.2.1, a.2.2 + b.2.2)

/-- Componentwise vector subtraction. -/
noncomputable def vsub (a b : V3) : V3 := (a.1 - b.1, a.2.1 - b.2.1, a.2.2 - b.2.2)

/-- Scalar multiple of a vector. -/
noncomputable def smul (c : ℝ) (a : V3) : V3 := (c * a.1, c * a.2.1, c * a.2.2)

/-- Dot product, `np.dot`. -/
noncomputable def vdot (a b : V3) : ℝ := a.1 * b.1 + a.2.1 * b.2.1 + a.2.2 * b.2.2

/-- Componentwise division of a vector by a scalar. -/
noncomputable def vdiv (a : V3) (c : ℝ) : V3 := (a.1 / c, a.2.1 / c, a.2.2 / c)

/-- Euclidean norm, `np.linalg.norm`. -/
noncomputable def vnorm (a : V3) : ℝ := Real.sqrt (vdot a a)

namespace RevitModel

/-- A `trimesh.Trimesh` as consumed by `RevitWall.create_buffered_mesh`:
vertices, per-vertex normals (`mesh.vertex_normals`), and triangular faces
as vertex-index triples. -/
structure Trimesh where
  vertices : List V3
  vertex_normals : List V3
  faces : List (ℕ × ℕ × ℕ)

/-- Mesh built by `trimesh.Trimesh(vertices=buffered_vertices,
faces=self.mesh.faces, process=False)`. -/
structure FacedMesh where
  vertices : List V3
  faces : List (ℕ × ℕ × ℕ)

/-- One vertex of the buffered mesh:
`vertices + buffer_distance * vertex_normals / np.maximum(norms, 1e-10)`. -/
noncomputable def displaced_vertex (buffer_distance : ℝ) (v n : V3) : V3 :=
  vadd v (smul buffer_distance (vdiv n (max (vnorm n) (1 / 10000000000))))

/-- Displacement step of `RevitWall.create_buffered_mesh`: every vertex moved
along its normalized normal, faces passed through unchanged. -/
noncomputable def displace_mesh (m : Trimesh) (buffer_distance : ℝ) : FacedMesh :=
  ⟨List.zipWith (displaced_vertex buffer_distance) m.vertices m.vertex_normals, m.faces⟩

/-- An undirected edge as an ordered index pair. -/
def undirected_edge (a b : ℕ) : ℕ × ℕ := if a ≤ b then (a, b) else (b, a)

/-- The three undirected edges of a triangular face. -/
def face_edges (f : ℕ × ℕ × ℕ) : List (ℕ × ℕ) :=
  [undirected_edge f.1 f.2.1, undirected_edge f.2.1 f.2.2, undirected_edge f.1 f.2.2]

/-- All edges of a face list, with multiplicity. -/
def mesh_edges (faces : List (ℕ × ℕ × ℕ)) : List (ℕ × ℕ) :=
  faces.flatMap face_edges

/-- `trimesh`'s `is_watertight` property: every edge is shared by exactly two
faces. -/
def is_watertight (faces : List (ℕ × ℕ × ℕ)) : Bool :=
  (mesh_edges faces).all (fun e => (mesh_edges faces).count e = 2)

/-- `RevitWall.create_buffered_mesh`: displace the vertices, then, when the
result is not watertight, hand the mesh to the external repair call and
return whatever it produces — the result is not re-checked and no
repair-status flag is recorded anywhere.  The external repair is a
parameter because it lives in the mesh library, not in this repository. -/
noncomputable def create_buffered_mesh (repair_call : FacedMesh → FacedMesh)
    (m : Trimesh) (buffer_distance : ℝ) : FacedMesh :=
  let buffered_mesh := displace_mesh m buffer_distance
  if is_watertight buffered_mesh.faces then buffered_mesh
  else repair_call buffered_mesh

end RevitModel

/-- C6, amended.  The buffered mesh keeps the input face topology, and each
vertex is displaced by `distance` times `normal / max(norm(normal), 1e-10)`:
for a normal with norm at least `1e-10` this is exactly `distance *
normalize(normal)`; an exactly-zero normal leaves the vertex unchanged (and
no division by zero occurs, the denominator being clamped to `1e-10`).  A
non-zero normal with norm below `1e-10` is, however, displaced by
`distance * normal / 1e-10` — not left undisplaced (see the
counterexample). -/
theorem C6_buffered_vertices (m : RevitModel.Trimesh) (d : ℝ) :
    (RevitModel.displace_mesh m d).faces = m.faces ∧
    ∀ (i : ℕ) (v n : V3), m.vertices.get? i = some v →
      m.vertex_normals.get? i = some n →
      ((1 / 10000000000 ≤ vnorm n →
        (RevitModel.displace_mesh m d).vertices.get? i =
          some (vadd v (smul d (vdiv n (vnorm n))))) ∧
      (n = ((0 : ℝ), (0 : ℝ), (0 : ℝ)) →
        (RevitModel.displace_mesh m d).vertices.get? i = some v)) := by
  constructor
  · rfl
  · intro i v n hv hn
    have hz : (RevitModel.displace_mesh m d).vertices.get? i =
        some (RevitModel.displaced_vertex d v n) := by
      show (List.zipWith (RevitModel.displaced_vertex d)
        m.vertices m.vertex_normals).get? i = _
      rw [List.get?_zipWith', hv, hn]
      rfl
    constructor
    · intro hnorm
      rw [hz, RevitModel.displaced_vertex, max_eq_left hnorm]
    · intro hn0
      subst hn0
      rw [hz, RevitModel.displaced_vertex]
      have hvn : vnorm ((0 : ℝ), (0 : ℝ), (0 : ℝ)) = 0 := by
        simp [vnorm, vdot]
      rw [hvn, max_eq_right (by norm_num : (0 : ℝ) ≤ 1 / 10000000000)]
      simp [vadd, smul, vdiv]

/-- C6, witness for the amended theorem: for the single-vertex mesh with unit
normal `(0,0,1)` (norm 1 ≥ 1e-10) and distance 1, the theorem yields the
normalized displacement. -/
theorem C6_buffered_vertices_witness :
    (RevitModel.displace_mesh ⟨[(0, 0, 0)], [(0, 0, 1)], [(0, 1, 2)]⟩ 1).vertices.get? 0 =
      some (vadd (0, 0, 0) (smul 1 (vdiv (0, 0, 1) (vnorm (0, 0, 1))))) :=
  ((C6_buffered_vertices ⟨[(0, 0, 0)], [(0, 0, 1)], [(0, 1, 2)]⟩ 1).2 0
    (0, 0, 0) (0, 0, 1) rfl rfl).1
    (by
      have h : vnorm ((0 : ℝ), (0 : ℝ), (1 : ℝ)) = 1 := by
        simp [vnorm, vdot]
      rw [h]
      norm_num)

/-- C6, counterexample.  The claim says a vertex whose normal has near-zero
magnitude is left undisplaced, and every other vertex is displaced by
`distance * normalize(normal)`.  For the normal `(5e-11, 0, 0)` — magnitude
`5e-11`, below the `1e-10` clamp — and distance 1, the code displaces the
vertex `(0,0,0)` to `(1/2, 0, 0)`: neither unchanged nor equal to the
normalized displacement `(1, 0, 0)`. -/
theorem C6_counterexample :
    (RevitModel.displace_mesh
      ⟨[(0, 0, 0)], [(1 / 20000000000, 0, 0)], [(0, 1, 2)]⟩ 1).vertices =
      [((1 / 2 : ℝ), (0 : ℝ), (0 : ℝ))] ∧
    ((1 / 2 : ℝ), (0 : ℝ), (0 : ℝ)) ≠ ((0 : ℝ), (0 : ℝ), (0 : ℝ)) ∧
    ((1 / 2 : ℝ), (0 : ℝ), (0 : ℝ)) ≠
      vadd (0, 0, 0)
        (smul 1 (vdiv (1 / 20000000000, 0, 0) (vnorm (1 / 20000000000, 0, 0)))) := by
  have hnorm : vnorm ((1 / 20000000000 : ℝ), 0, 0) = 1 / 20000000000 := by
    rw [vnorm]
    have h : vdot ((1 / 20000000000 : ℝ), 0, 0) ((1 / 20000000000 : ℝ), 0, 0) =
        (1 / 20000000000 : ℝ) ^ 2 := by
      simp [vdot]
      ring
    rw [h, Real.sqrt_sq (by norm_num)]
  have hmax : max (vnorm ((1 / 20000000000 : ℝ), 0, 0)) (1 / 10000000000) =
      1 / 10000000000 := by
    rw [hnorm]
    exact max_eq_right (by norm_num)
  refine ⟨?_, ?_, ?_⟩
  · show List.zipWith _ _ _ = _
    simp only [List.zipWith, RevitModel.displaced_vertex, hmax]
    simp [vadd, smul, vdiv]
    norm_num
  · simp [Prod.ext_iff]
  · rw [hnorm]
    simp [vadd, smul, vdiv, Prod.ext_iff]

/-- C4, code evaluation at the failing input.  Buffering a single open
triangle (one face; every edge on the boundary) yields a non-watertight
mesh, so `create_buffered_mesh` takes the repair branch and returns the
external repair call's output as-is: the result is never re-checked for
watertightness and no per-solid repair-status flag exists anywhere in
`RevitWall` — a failed repair is silently passed downstream.  (At the Python
level the branch `buffered_mesh.repair()` invokes an attribute that
`trimesh.Trimesh` does not define, so the construction raises instead of
proceeding best-effort.) -/
theorem C4_repair_branch_unchecked :
    RevitModel.is_watertight
      (RevitModel.displace_mesh
        ⟨[(0, 0, 0), (1, 0, 0), (0, 1, 0)],
         [(0, 0, 1), (0, 0, 1), (0, 0, 1)], [(0, 1, 2)]⟩ 1).faces = false ∧
    ∀ repair_call : RevitModel.FacedMesh → RevitModel.FacedMesh,
      RevitModel.create_buffered_mesh repair_call
        ⟨[(0, 0, 0), (1, 0, 0), (0, 1, 0)],
         [(0, 0, 1), (0, 0, 1), (0, 0, 1)], [(0, 1, 2)]⟩ 1 =
      repair_call (RevitModel.displace_mesh
        ⟨[(0, 0, 0), (1, 0, 0), (0, 1, 0)],
         [(0, 0, 1), (0, 0, 1), (0, 0, 1)], [(0, 1, 2)]⟩ 1) := by
  have hwt : RevitModel.is_watertight
      (RevitModel.displace_mesh
        ⟨[(0, 0, 0), (1, 0, 0), (0, 1, 0)],
         [(0, 0, 1), (0, 0, 1), (0, 0, 1)], [(0, 1, 2)]⟩ 1).faces = false := by
    have hfaces : (RevitModel.displace_mesh
        ⟨[(0, 0, 0), (1, 0, 0), (0, 1, 0)],
         [(0, 0, 1), (0, 0, 1), (0, 0, 1)], [(0, 1, 2)]⟩ 1).faces =
        [(0, 1, 2)] := rfl
    rw [hfaces]
    decide
  refine ⟨hwt, fun repair_call => ?_⟩
  simp only [RevitModel.create_buffered_mesh, hwt, Bool.false_eq_true, if_false]

namespace EtabsModel

/-- `np.arange(start, stop, step)` for a positive step: the arithmetic
progression `start + k * step` of length `⌈(stop - start) / step⌉`. -/
noncomputable def arange (start stop step : ℝ) : List ℝ :=
  (List.range (⌈(stop - start) / step⌉).toNat).map (fun k => start + k * step)

/-- Barycentric point-in-triangle test of `generate_grid.is_point_in_surface`
(Boolean form used by the filter). -/
noncomputable def point_in_triangle (pt t0 t1 t2 : V3) : Bool :=
  let u := vsub t1 t0
  let v := vsub t2 t0
  let w := vsub pt t0
  let denom := vdot u u * vdot v v - vdot u v * vdot u v
  let s := (vdot u u * vdot v w - vdot u v * vdot u w) / denom
  let t := (vdot v v * vdot u w - vdot u v * vdot v w) / denom
  decide (s ≥ 0) && decide (t ≥ 0) && decide (s + t ≤ 1)

/-- The same barycentric acceptance condition `s >= 0, t >= 0, s + t <= 1`,
stated as the claim states it. -/
def in_triangle (pt t0 t1 t2 : V3) : Prop :=
  0 ≤ (vdot (vsub t1 t0) (vsub t1 t0) * vdot (vsub t2 t0) (vsub pt t0) -
        vdot (vsub t1 t0) (vsub t2 t0) * vdot (vsub t1 t0) (vsub pt t0)) /
      (vdot (vsub t1 t0) (vsub t1 t0) * vdot (vsub t2 t0) (vsub t2 t0) -
        vdot (vsub t1 t0) (vsub t2 t0) * vdot (vsub t1 t0) (vsub t2 t0)) ∧
  0 ≤ (vdot (vsub t2 t0) (vsub t2 t0) * vdot (vsub t1 t0) (vsub pt t0) -
        vdot (vsub t1 t0) (vsub t2 t0) * vdot (vsub t2 t0) (vsub pt t0)) /
      (vdot (vsub t1 t0) (vsub t1 t0) * vdot (vsub t2 t0) (vsub t2 t0) -
        vdot (vsub t1 t0) (vsub t2 t0) * vdot (vsub t1 t0) (vsub t2 t0)) ∧
  (vdot (vsub t1 t0) (vsub t1 t0) * vdot (vsub t2 t0) (vsub pt t0) -
        vdot (vsub t1 t0) (vsub t2 t0) * vdot (vsub t1 t0) (vsub pt t0)) /
      (vdot (vsub t1 t0) (vsub t1 t0) * vdot (vsub t2 t0) (vsub t2 t0) -
        vdot (vsub t1 t0) (vsub t2 t0) * vdot (vsub t1 t0) (vsub t2 t0)) +
    (vdot (vsub t2 t0) (vsub t2 t0) * vdot (vsub t1 t0) (vsub pt t0) -
        vdot (vsub t1 t0) (vsub t2 t0) * vdot (vsub t2 t0) (vsub pt t0)) /
      (vdot (vsub t1 t0) (vsub t1 t0) * vdot (vsub t2 t0) (vsub t2 t0) -
        vdot (vsub t1 t0) (vsub t2 t0) * vdot (vsub t1 t0) (vsub t2 t0)) ≤ 1

/-- The Boolean test agrees with the propositional acceptance condition. -/
lemma point_in_triangle_iff (pt t0 t1 t2 : V3) :
    point_in_triangle pt t0 t1 t2 = true ↔ in_triangle pt t0 t1 t2 := by
  simp [point_in_triangle, in_triangle, Bool.and_eq_true, decide_eq_true_eq,
    ge_iff_le, and_assoc]

/-- Quadrilateral membership test of `generate_grid`: inside triangle
`(v0, v1, v2)` or inside triangle `(v0, v2, v3)`. -/
noncomputable def is_point_in_surface (v0 v1 v2 v3 pt : V3) : Bool :=
  point_in_triangle pt v0 v1 v2 || point_in_triangle pt v0 v2 v3

/-- `AnalyticalSurface.generate_grid`: build the local 2-D frame from the
normalized edge vectors `v1 - v0` and `v3 - v0`, project the four corners,
lay a grid with spacing `max_distance` over the projected bounding
rectangle, map grid points back to 3-D, and keep those passing
`is_point_in_surface`. -/
noncomputable def generate_grid (v0 v1 v2 v3 : V3) (max_distance : ℝ) : List V3 :=
  let u_vec := vdiv (vsub v1 v0) (vnorm (vsub v1 v0))
  let v_vec := vdiv (vsub v3 v0) (vnorm (vsub v3 v0))
  let v0_2d : ℝ × ℝ := (0, 0)
  let v1_2d : ℝ × ℝ := (vdot (vsub v1 v0) u_vec, vdot (vsub v1 v0) v_vec)
  let v2_2d : ℝ × ℝ := (vdot (vsub v2 v0) u_vec, vdot (vsub v2 v0) v_vec)
  let v3_2d : ℝ × ℝ := (vdot (vsub v3 v0) u_vec, vdot (vsub v3 v0) v_vec)
  let min_x := min (min (min v0_2d.1 v1_2d.1) v2_2d.1) v3_2d.1
  let max_x := max (max (max v0_2d.1 v1_2d.1) v2_2d.1) v3_2d.1
  let min_y := min (min (min v0_2d.2 v1_2d.2) v2_2d.2) v3_2d.2
  let max_y := max (max (max v0_2d.2 v1_2d.2) v2_2d.2) v3_2d.2
  let x_coords := arange min_x max_x max_distance
  let y_coords := arange min_y max_y max_distance
  let grid_2d := x_coords.flatMap (fun x => y_coords.map (fun y => (x, y)))
  let grid_3d := grid_2d.map (fun q => vadd v0 (vadd (smul q.1 u_vec) (smul q.2 v_vec)))
  grid_3d.filter (fun p => is_point_in_surface v0 v1 v2 v3 p)

end EtabsModel

/-- C8, confirmed.  Every interior point produced by the grid strategy passes
the barycentric acceptance test (`s >= 0`, `t >= 0`, `s + t <= 1`) against
triangle `(v0, v1, v2)` or triangle `(v0, v2, v3)`: the grid is laid out in
the local basis of the normalized edge vectors and then filtered by exactly
this predicate.  The computation is a pure function of the four vertices and
the spacing, hence deterministic. -/
theorem C8_grid_points_inside (v0 v1 v2 v3 : V3) (max_distance : ℝ) (p : V3)
    (hp : p ∈ EtabsModel.generate_grid v0 v1 v2 v3 max_distance) :
    EtabsModel.in_triangle p v0 v1 v2 ∨ EtabsModel.in_triangle p v0 v2 v3 := by
  rw [EtabsModel.generate_grid] at hp
  have hpred := List.of_mem_filter hp
  rw [EtabsModel.is_point_in_surface, Bool.or_eq_true] at hpred
  rcases hpred with h | h
  · exact Or.inl ((EtabsModel.point_in_triangle_iff p v0 v1 v2).mp h)
  · exact Or.inr ((EtabsModel.point_in_triangle_iff p v0 v2 v3).mp h)

/-- C8, witness: for the unit square `(0,0,0),(1,0,0),(1,1,0),(0,1,0)` with
spacing 2, the grid evaluates to the single interior point `(0,0,0)`, and
the theorem applied there places it inside a triangle of the
fan-triangulation. -/
theorem C8_grid_points_inside_witness :
    EtabsModel.in_triangle ((0:ℝ), (0:ℝ), (0:ℝ)) (0, 0, 0) (1, 0, 0) (1, 1, 0) ∨
    EtabsModel.in_triangle ((0:ℝ), (0:ℝ), (0:ℝ)) (0, 0, 0) (1, 1, 0) (0, 1, 0) :=
  C8_grid_points_inside (0, 0, 0) (1, 0, 0) (1, 1, 0) (0, 1, 0) 2 (0, 0, 0)
    (by
      have hgrid : EtabsModel.generate_grid ((0:ℝ), (0:ℝ), (0:ℝ)) (1, 0, 0) (1, 1, 0)
          (0, 1, 0) 2 = [((0:ℝ), (0:ℝ), (0:ℝ))] := by
        simp only [EtabsModel.generate_grid]
        have hc : (⌈(1:ℝ)/2⌉).toNat = 1 := by
          have h : ⌈(1:ℝ)/2⌉ = 1 := by
            rw [Int.ceil_eq_iff]
            norm_num
          rw [h]
          rfl
        norm_num [vsub, vdiv, vdot, vnorm, vadd, smul, EtabsModel.arange,
          EtabsModel.is_point_in_surface, EtabsModel.point_in_triangle,
          min_def, max_def, hc, List.range_succ, Real.sqrt_one, List.filter]
      rw [hgrid]
      exact List.mem_singleton.mpr rfl)
